import Mathlib

/-!
Verification of the connect-america chat client and its proxy API handler.

The repository has two components in one source file:
* `ChatPage` (the client): conversation state, `handleSubmit`, `sendMessageToAPI`,
  `getDocumentTitle` and the `References` renderer;
* the API route `POST` handler: validates the request body, forwards the message
  to an external assistant service with a 290000 ms abort deadline, and
  normalizes every outcome into a fixed assistant-shaped reply.

We give a shallow embedding: JSON field presence is `Option`, JavaScript string
falsiness (`undefined`, `null`, `""` are falsy) is modelled explicitly, the
outcome of the outbound `fetch` (timeout abort, other network error, or a
response with a status and an optionally-parseable JSON body) is an explicit
parameter, and the handler is a pure function from the parsed request and that
outcome to an HTTP response plus a flag recording whether the outbound call was
issued.
-/

namespace ConnectAmerica

/-- A referenced document entry `{ url, content }`. -/
structure UrlEntry where
  url : String
  content : String
deriving Repr, DecidableEq

/-- Message role: `'user' | 'assistant'`. -/
inductive Role where
  | user
  | assistant
deriving Repr, DecidableEq

/-- The `Message` interface: `{ role, content, urls? }`.  An absent `urls`
field is `none`. -/
structure Message where
  role : Role
  content : String
  urls : Option (List UrlEntry) := none
deriving Repr, DecidableEq

/-- JavaScript truthiness of an optional string field: `undefined` (absent)
and the empty string are falsy, every other string is truthy. -/
def jsTruthy : Option String → Bool
  | none => false
  | some s => !s.isEmpty

/-- JavaScript `a || b` for an optional string `a` against a string default
`b`: the left side is taken exactly when it is present and non-empty. -/
def jsOrElse (a : Option String) (b : String) : String :=
  match a with
  | none => b
  | some s => if s.isEmpty then b else s

/-- The parsed request body seen by the handler.  `malformed` is the case
where `request.json()` throws (body not parseable as JSON); otherwise the
body is an object whose `message` field may be absent. -/
inductive ReqBody where
  | malformed
  | parsed (message : Option String)
deriving Repr, DecidableEq

/-- The external assistant service's JSON body, with the fields the handler
reads: optional `response` and `message` texts and an optional `urls` list. -/
structure ExtBody where
  response : Option String
  message : Option String
  urls : Option (List UrlEntry)
deriving Repr, DecidableEq

/-- Outcome of the outbound `fetch` to the external assistant service:

* `timeout`: the 290000 ms deadline fired, `controller.abort()` cancelled the
  call, and `fetch` (or the body read) rejected with an `AbortError`;
* `fetchFailure`: `fetch` rejected with any other error (network failure);
* `responded status body`: the service answered with the given HTTP status;
  `body` is `some b` when its body parses as JSON and `none` when
  `response.json()` would throw. -/
inductive ExtOutcome where
  | timeout
  | fetchFailure
  | responded (status : Nat) (body : Option ExtBody)
deriving Repr, DecidableEq

/-- `Response.ok`: the HTTP status is in the 2xx success range. -/
def statusOk (status : Nat) : Bool :=
  200 ≤ status && status ≤ 299

/-- An HTTP response produced by the handler: a status code and the JSON
body (always a `Message`).  `NextResponse.json(body)` without options has
status 200. -/
structure HandlerResponse where
  status : Nat
  body : Message
deriving Repr, DecidableEq

/-- Result of one handler invocation: the response sent to the client and
whether the outbound call to the external service was issued. -/
structure HandlerResult where
  response : HandlerResponse
  calledExternal : Bool
deriving Repr, DecidableEq

/-- The hard deadline on the outbound call, in milliseconds:
`setTimeout(() => controller.abort(), 290000)`. -/
def timeoutMs : Nat := 290000

/-- The API route `POST` handler.  Mirrors the source: a malformed body makes
`request.json()` throw into the outer catch (500, generic message, no outbound
call); a falsy `message` returns 400 `"No message provided"` with no outbound
call; otherwise the outbound call is issued and the outcome is dispatched:
abort on deadline gives 408, any other fetch error reaches the outer catch
(500), a non-ok status propagates that status with a fixed error content, an
ok status with an unparseable body throws into the outer catch (500), and an
ok status with JSON body `b` gives 200 with content
`b.response || b.message || 'No response received'` and `urls: b.urls`. -/
def POST (req : ReqBody) (ext : ExtOutcome) : HandlerResult :=
  match req with
  | .malformed =>
      ⟨⟨500, ⟨.assistant, "Sorry, something went wrong. Please try again.", none⟩⟩, false⟩
  | .parsed message =>
      if !jsTruthy message then
        ⟨⟨400, ⟨.assistant, "No message provided", none⟩⟩, false⟩
      else
        match ext with
        | .timeout =>
            ⟨⟨408, ⟨.assistant, "Sorry, the request timed out. Please try again.", none⟩⟩, true⟩
        | .fetchFailure =>
            ⟨⟨500, ⟨.assistant, "Sorry, something went wrong. Please try again.", none⟩⟩, true⟩
        | .responded status body =>
            if !statusOk status then
              ⟨⟨status, ⟨.assistant, "Sorry, I encountered an error processing your request.", none⟩⟩, true⟩
            else
              match body with
              | none =>
                  ⟨⟨500, ⟨.assistant, "Sorry, something went wrong. Please try again.", none⟩⟩, true⟩
              | some b =>
                  ⟨⟨200, ⟨.assistant, jsOrElse b.response (jsOrElse b.message "No response received"), b.urls⟩⟩, true⟩

end ConnectAmerica

namespace ConnectAmerica

/-- C1: a request whose JSON body has an absent or empty `message` field gets
an immediate 400 response with body `{role: "assistant", content: "No message
provided"}`, and no outbound call to the external service is made. -/
theorem post_missing_message_is_400 (message : Option String) (ext : ExtOutcome)
    (h : jsTruthy message = false) :
    POST (.parsed message) ext =
      ⟨⟨400, ⟨.assistant, "No message provided", none⟩⟩, false⟩ := by
  simp [POST, h]

/-- Witness for C1: concrete absent and empty `message` inputs. -/
theorem post_missing_message_is_400_witness :
    POST (.parsed none) (.responded 200 none) =
      ⟨⟨400, ⟨.assistant, "No message provided", none⟩⟩, false⟩ ∧
    POST (.parsed (some "")) .timeout =
      ⟨⟨400, ⟨.assistant, "No message provided", none⟩⟩, false⟩ :=
  ⟨post_missing_message_is_400 none (.responded 200 none) (by decide),
   post_missing_message_is_400 (some "") .timeout (by decide)⟩

/-- C2: for a non-empty `message`, when the 290-second deadline (290000 ms
from call start) fires before the external service responds, the aborted
outbound call surfaces as the timeout outcome and the handler responds 408
with `{role: "assistant", content: "Sorry, the request timed out. Please try
again."}`; the outbound call was issued. -/
theorem post_timeout_is_408 (message : Option String)
    (h : jsTruthy message = true) :
    timeoutMs = 290 * 1000 ∧
    POST (.parsed message) .timeout =
      ⟨⟨408, ⟨.assistant, "Sorry, the request timed out. Please try again.", none⟩⟩, true⟩ := by
  refine ⟨rfl, ?_⟩
  simp [POST, h]

/-- Witness for C2 at `message = "hello"`. -/
theorem post_timeout_is_408_witness :
    timeoutMs = 290 * 1000 ∧
    POST (.parsed (some "hello")) .timeout =
      ⟨⟨408, ⟨.assistant, "Sorry, the request timed out. Please try again.", none⟩⟩, true⟩ :=
  post_timeout_is_408 (some "hello") (by decide)

/-- C3: for a non-empty `message`, when the external service answers with a
non-2xx status, the handler responds with `{role: "assistant", content:
"Sorry, I encountered an error processing your request."}` and that same
status code (the body of the external response is never read). -/
theorem post_upstream_error_propagates_status (message : Option String)
    (status : Nat) (body : Option ExtBody)
    (hm : jsTruthy message = true) (hs : statusOk status = false) :
    POST (.parsed message) (.responded status body) =
      ⟨⟨status, ⟨.assistant, "Sorry, I encountered an error processing your request.", none⟩⟩, true⟩ := by
  simp [POST, hm, hs]

/-- Witness for C3: a stubbed external service returning 503. -/
theorem post_upstream_error_propagates_status_witness :
    POST (.parsed (some "hello")) (.responded 503 none) =
      ⟨⟨503, ⟨.assistant, "Sorry, I encountered an error processing your request.", none⟩⟩, true⟩ :=
  post_upstream_error_propagates_status (some "hello") 503 none (by decide) (by decide)

/-- C5: on every input — malformed body, missing message, timeout, network
failure, upstream error, unparseable success body, or success — the handler's
response body is a `Message` whose role is `assistant` (its `content` is a
`String` by construction of `Message`). -/
theorem post_always_assistant_shaped (req : ReqBody) (ext : ExtOutcome) :
    (POST req ext).response.body.role = Role.assistant := by
  rcases req with _ | message
  · rfl
  · rcases h : jsTruthy message with _ | _
    · simp [POST, h]
    · rcases ext with _ | _ | ⟨status, body⟩
      · simp [POST, h]
      · simp [POST, h]
      · rcases hs : statusOk status with _ | _
        · simp [POST, h, hs]
        · rcases body with _ | b
          · simp [POST, h, hs]
          · simp [POST, h, hs]

/-- C10: when the request body is not parseable as JSON, `request.json()`
throws into the outer catch: the handler responds 500 with content `"Sorry,
something went wrong. Please try again."` — not the 400 validation response —
and makes no outbound call. -/
theorem post_malformed_body_is_500 (ext : ExtOutcome) :
    POST .malformed ext =
      ⟨⟨500, ⟨.assistant, "Sorry, something went wrong. Please try again.", none⟩⟩, false⟩ ∧
    (POST .malformed ext).response.status ≠ 400 ∧
    (POST .malformed ext).response.body.content ≠ "No message provided" := by
  refine ⟨rfl, ?_, ?_⟩ <;> simp [POST]

/-- Counterexample to C4 as stated: with a successful external response whose
body is `{response: "", message: "hi"}`, the claim predicts reply content `""`
(the present `response` field used as-is), but `data.response || data.message
|| ...` treats the empty string as falsy and the handler replies `"hi"`. -/
theorem post_empty_response_not_used_as_is :
    (POST (.parsed (some "hello"))
        (.responded 200 (some ⟨some "", some "hi", none⟩))).response.body.content = "hi" ∧
    (POST (.parsed (some "hello"))
        (.responded 200 (some ⟨some "", some "hi", none⟩))).response.body.content ≠ "" := by
  constructor <;> decide

/-- C4 amended: on a successful (2xx, parseable) external response, the reply
has status 200, passes `urls` through verbatim, and its content is the
external `response` field when that is present and non-empty; otherwise the
`message` field when that is present and non-empty; otherwise the literal
`"No response received"`.  A present-but-empty `response` (or `message`) is
falsy and falls through rather than being used as-is. -/
theorem post_success_content_resolution (message : Option String)
    (status : Nat) (b : ExtBody)
    (hm : jsTruthy message = true) (hs : statusOk status = true) :
    (POST (.parsed message) (.responded status (some b))).response.status = 200 ∧
    (POST (.parsed message) (.responded status (some b))).response.body.urls = b.urls ∧
    (∀ s, b.response = some s → s ≠ "" →
      (POST (.parsed message) (.responded status (some b))).response.body.content = s) ∧
    (jsTruthy b.response = false → ∀ t, b.message = some t → t ≠ "" →
      (POST (.parsed message) (.responded status (some b))).response.body.content = t) ∧
    (jsTruthy b.response = false → jsTruthy b.message = false →
      (POST (.parsed message) (.responded status (some b))).response.body.content
        = "No response received") := by
  refine ⟨by simp [POST, hm, hs], by simp [POST, hm, hs], ?_, ?_, ?_⟩
  · intro s hresp hne
    simp [POST, hm, hs, jsOrElse, hresp, String.isEmpty_iff, hne]
  · intro hfalsy t hmsg hne
    rcases hr : b.response with _ | s
    · simp [POST, hm, hs, jsOrElse, hr, hmsg, String.isEmpty_iff, hne]
    · rw [hr] at hfalsy
      simp only [jsTruthy, Bool.not_eq_false'] at hfalsy
      simp [POST, hm, hs, jsOrElse, hr, hfalsy, hmsg, String.isEmpty_iff, hne]
  · intro hr hmsg
    rcases hresp : b.response with _ | s <;> rcases hm2 : b.message with _ | t
    · simp [POST, hm, hs, jsOrElse, hresp, hm2]
    · rw [hm2] at hmsg
      simp only [jsTruthy, Bool.not_eq_false'] at hmsg
      simp [POST, hm, hs, jsOrElse, hresp, hm2, hmsg]
    · rw [hresp] at hr
      simp only [jsTruthy, Bool.not_eq_false'] at hr
      simp [POST, hm, hs, jsOrElse, hresp, hm2, hr]
    · rw [hresp] at hr
      rw [hm2] at hmsg
      simp only [jsTruthy, Bool.not_eq_false'] at hr hmsg
      simp [POST, hm, hs, jsOrElse, hresp, hm2, hr, hmsg]

/-- Witness for the amended C4, exercising all three content branches and the
`urls` pass-through on concrete external bodies. -/
theorem post_success_content_resolution_witness :
    (POST (.parsed (some "hello"))
        (.responded 200 (some ⟨some "hi there", none, some [⟨"a.pdf", "c"⟩]⟩))).response.body.content
      = "hi there" ∧
    (POST (.parsed (some "hello"))
        (.responded 200 (some ⟨some "hi there", none, some [⟨"a.pdf", "c"⟩]⟩))).response.body.urls
      = some [⟨"a.pdf", "c"⟩] ∧
    (POST (.parsed (some "hello"))
        (.responded 200 (some ⟨none, some "from msg", none⟩))).response.body.content
      = "from msg" ∧
    (POST (.parsed (some "hello"))
        (.responded 200 (some ⟨some "", none, none⟩))).response.body.content
      = "No response received" :=
  ⟨(post_success_content_resolution (some "hello") 200
      ⟨some "hi there", none, some [⟨"a.pdf", "c"⟩]⟩ (by decide) (by decide)).2.2.1
      "hi there" rfl (by decide),
   (post_success_content_resolution (some "hello") 200
      ⟨some "hi there", none, some [⟨"a.pdf", "c"⟩]⟩ (by decide) (by decide)).2.1,
   (post_success_content_resolution (some "hello") 200
      ⟨none, some "from msg", none⟩ (by decide) (by decide)).2.2.2.1 (by decide)
      "from msg" rfl (by decide),
   (post_success_content_resolution (some "hello") 200
      ⟨some "", none, none⟩ (by decide) (by decide)).2.2.2.2 (by decide) (by decide)⟩

/-- The chat client's state: the conversation `messages`, the textarea
`inputValue`, the `loading` flag, and the `error` banner text (absent is
`none`). -/
structure ClientState where
  messages : List Message
  inputValue : String
  loading : Bool
  error : Option String
deriving Repr, DecidableEq

/-- Outcome of the client's `fetch('/api/chat', ...)`: either the fetch
itself rejects (handler unreachable), or the handler responds with a status
and a JSON body. -/
inductive ClientFetchOutcome where
  | networkFailure
  | handlerResponse (status : Nat) (body : Message)
deriving Repr, DecidableEq

/-- `sendMessageToAPI`: rethrows a fetch failure, throws `Error('Failed to
send message')` when `!response.ok`, and otherwise returns the parsed body.
A thrown exception (caught by `handleSubmit`) is modelled as `none`. -/
def sendMessageToAPI (o : ClientFetchOutcome) : Option Message :=
  match o with
  | .networkFailure => none
  | .handlerResponse status body =>
      if statusOk status then some body else none

/-- The user-facing banner text set when `sendMessageToAPI` throws. -/
def clientErrorText : String := "Failed to get response. Please try again."

/-- Drops leading whitespace characters from a character list. -/
def dropLeadingWs : List Char → List Char
  | [] => []
  | c :: cs => if c.isWhitespace then dropLeadingWs cs else c :: cs

/-- JavaScript `s.trim()`: strip whitespace from both ends of the string. -/
def jsTrim (s : String) : String :=
  ⟨(dropLeadingWs (dropLeadingWs s.data).reverse).reverse⟩

/-- `handleSubmit`: if the trimmed input is empty nothing happens; otherwise
the error is cleared, loading is set, the raw (untrimmed) `inputValue` is
appended as a user message and the input cleared, then `sendMessageToAPI` is
awaited: its result is appended on success, the error banner is set on
throw, and loading is cleared in the `finally`.  The second component is the
message text carried by the outbound call (`none` when no call is made):
the code passes the raw `inputValue`. -/
def handleSubmit (s : ClientState) (o : ClientFetchOutcome) :
    ClientState × Option String :=
  if (jsTrim s.inputValue).isEmpty then (s, none)
  else
    let s1 : ClientState :=
      { messages := s.messages ++ [⟨Role.user, s.inputValue, none⟩],
        inputValue := "", loading := true, error := none }
    match sendMessageToAPI o with
    | some aiResponse =>
        ({ s1 with messages := s1.messages ++ [aiResponse], loading := false },
         some s.inputValue)
    | none =>
        ({ s1 with error := some clientErrorText, loading := false },
         some s.inputValue)

/-- Whether the first character list is an initial segment of the second. -/
def startsWithChars : List Char → List Char → Bool
  | [], _ => true
  | _ :: _, [] => false
  | p :: ps, c :: cs => p == c && startsWithChars ps cs

/-- Whether the pattern occurs as a contiguous run inside the list. -/
def containsChars (pat : List Char) : List Char → Bool
  | [] => startsWithChars pat []
  | c :: cs => startsWithChars pat (c :: cs) || containsChars pat cs

/-- JavaScript `s.includes(sub)`: `sub` occurs as a substring of `s`. -/
def jsIncludes (s sub : String) : Bool :=
  containsChars sub.data s.data

/-- The document-type label rendered by `References`:
`url.includes('.pdf') ? 'PDF Document' : url.includes('.doc') ? 'Word
Document' : 'Document'`. -/
def docType (url : String) : String :=
  if jsIncludes url ".pdf" then "PDF Document"
  else if jsIncludes url ".doc" then "Word Document"
  else "Document"

/-- C6: for an input that is empty or whitespace-only, submitting is a
no-op: the client state (conversation, input, loading, error) is unchanged
and no outbound call is issued. -/
theorem handleSubmit_blank_input_is_noop (s : ClientState)
    (o : ClientFetchOutcome) (h : jsTrim s.inputValue = "") :
    handleSubmit s o = (s, none) := by
  have hg : (jsTrim s.inputValue).isEmpty = true := by rw [h]; rfl
  simp [handleSubmit, hg]

/-- Witness for C6 at a whitespace-only input. -/
theorem handleSubmit_blank_input_is_noop_witness :
    handleSubmit ⟨[], "   ", false, none⟩ .networkFailure
      = (⟨[], "   ", false, none⟩, none) :=
  handleSubmit_blank_input_is_noop ⟨[], "   ", false, none⟩ .networkFailure (by decide)

/-- Counterexample to C7 as stated: on input `" hi "` (non-empty after
trimming, trimmed text `"hi"`), the appended user message and the outbound
call both carry the raw `" hi "` — the trim result is used only as the
guard, never as the payload. -/
theorem handleSubmit_uses_raw_not_trimmed :
    jsTrim " hi " = "hi" ∧
    (handleSubmit ⟨[], " hi ", false, none⟩ .networkFailure).2 = some " hi " ∧
    (handleSubmit ⟨[], " hi ", false, none⟩ .networkFailure).2 ≠ some "hi" ∧
    (handleSubmit ⟨[], " hi ", false, none⟩ .networkFailure).1.messages
      = [⟨Role.user, " hi ", none⟩] ∧
    (handleSubmit ⟨[], " hi ", false, none⟩ .networkFailure).1.messages
      ≠ [⟨Role.user, "hi", none⟩] := by
  refine ⟨?_, ?_, ?_, ?_, ?_⟩ <;> decide

/-- C7 amended: for an input that is non-empty after trimming, submitting
appends exactly one user message whose content is the raw (untrimmed) input
text, and issues exactly one call to the proxy handler carrying that raw
text; at most one further (response) message follows the appended user
message. -/
theorem handleSubmit_appends_one_user_message (s : ClientState)
    (o : ClientFetchOutcome) (h : jsTrim s.inputValue ≠ "") :
    (handleSubmit s o).2 = some s.inputValue ∧
    ∃ rest, (handleSubmit s o).1.messages
        = s.messages ++ ⟨Role.user, s.inputValue, none⟩ :: rest ∧
      rest.length ≤ 1 := by
  have hg : (jsTrim s.inputValue).isEmpty = false := by
    cases he : (jsTrim s.inputValue).isEmpty
    · rfl
    · exact absurd ((String.isEmpty_iff _).mp he) h
  rcases ho : sendMessageToAPI o with _ | a
  · exact ⟨by simp [handleSubmit, hg, ho], [],
      by simp [handleSubmit, hg, ho], by simp⟩
  · exact ⟨by simp [handleSubmit, hg, ho], [a],
      by simp [handleSubmit, hg, ho], by simp⟩

/-- Witness for the amended C7: a successful round trip from input `"hi"`. -/
theorem handleSubmit_appends_one_user_message_witness :
    (handleSubmit ⟨[], "hi", false, none⟩
        (.handlerResponse 200 ⟨Role.assistant, "ok", none⟩)).2 = some "hi" ∧
    ∃ rest, (handleSubmit ⟨[], "hi", false, none⟩
          (.handlerResponse 200 ⟨Role.assistant, "ok", none⟩)).1.messages
        = [] ++ ⟨Role.user, "hi", none⟩ :: rest ∧
      rest.length ≤ 1 :=
  handleSubmit_appends_one_user_message ⟨[], "hi", false, none⟩
    (.handlerResponse 200 ⟨Role.assistant, "ok", none⟩) (by decide)

/-- Counterexample to C8 as stated: `"report.doc.pdf"` contains `".doc"`,
yet its label is `"PDF Document"`, not `"Word Document"` — the `.pdf` test
runs first and wins on URLs containing both substrings. -/
theorem docType_pdf_beats_doc :
    jsIncludes "report.doc.pdf" ".doc" = true ∧
    docType "report.doc.pdf" = "PDF Document" ∧
    docType "report.doc.pdf" ≠ "Word Document" := by
  refine ⟨?_, ?_, ?_⟩ <;> decide

/-- C8 amended: the document-type label is decided by substring matching in
order — every URL containing `.pdf` is labeled `"PDF Document"`; every URL
containing `.doc` but not `.pdf` is labeled `"Word Document"`; every URL
containing neither is labeled `"Document"`. -/
theorem docType_cases (url : String) :
    (jsIncludes url ".pdf" = true → docType url = "PDF Document") ∧
    (jsIncludes url ".pdf" = false → jsIncludes url ".doc" = true →
      docType url = "Word Document") ∧
    (jsIncludes url ".pdf" = false → jsIncludes url ".doc" = false →
      docType url = "Document") := by
  refine ⟨?_, ?_, ?_⟩
  · intro h1
    simp [docType, h1]
  · intro h1 h2
    simp [docType, h1, h2]
  · intro h1 h2
    simp [docType, h1, h2]

/-- Witness for the amended C8 on one URL of each kind. -/
theorem docType_cases_witness :
    docType "a/guide.pdf" = "PDF Document" ∧
    docType "a/guide.docx" = "Word Document" ∧
    docType "a/guide.txt" = "Document" :=
  ⟨(docType_cases "a/guide.pdf").1 (by decide),
   (docType_cases "a/guide.docx").2.1 (by decide) (by decide),
   (docType_cases "a/guide.txt").2.2 (by decide) (by decide)⟩

/-- Counterexample to C9 as stated: the handler responds 408 carrying the
assistant-shaped timeout message, but the client throws on `!response.ok`
before reading the body, so the message is never appended — the transcript
keeps only the user message and the standalone banner is set instead. -/
theorem handler_failure_message_not_appended :
    (handleSubmit ⟨[], "hi", false, none⟩
        (.handlerResponse 408
          ⟨Role.assistant, "Sorry, the request timed out. Please try again.", none⟩)).1.messages
      = [⟨Role.user, "hi", none⟩] ∧
    (handleSubmit ⟨[], "hi", false, none⟩
        (.handlerResponse 408
          ⟨Role.assistant, "Sorry, the request timed out. Please try again.", none⟩)).1.error
      = some clientErrorText := by
  constructor <;> decide

/-- C9 amended: a non-success handler response — whatever assistant-shaped
failure body it carries — is treated exactly like the client's own network
failure: no message is appended and the standalone banner is set; only 2xx
handler responses are ever appended to the transcript. -/
theorem handleSubmit_non_ok_same_as_network_failure (s : ClientState)
    (status : Nat) (body : Message)
    (h : jsTrim s.inputValue ≠ "") (hs : statusOk status = false) :
    handleSubmit s (.handlerResponse status body)
        = handleSubmit s .networkFailure ∧
    (handleSubmit s (.handlerResponse status body)).1.messages
        = s.messages ++ [⟨Role.user, s.inputValue, none⟩] ∧
    (handleSubmit s (.handlerResponse status body)).1.error
        = some clientErrorText := by
  have hg : (jsTrim s.inputValue).isEmpty = false := by
    cases he : (jsTrim s.inputValue).isEmpty
    · rfl
    · exact absurd ((String.isEmpty_iff _).mp he) h
  refine ⟨?_, ?_, ?_⟩ <;> simp [handleSubmit, hg, sendMessageToAPI, hs]

/-- Witness for the amended C9 at a concrete 503 upstream-error response. -/
theorem handleSubmit_non_ok_same_as_network_failure_witness :
    handleSubmit ⟨[], "hi", false, none⟩
        (.handlerResponse 503
          ⟨Role.assistant, "Sorry, I encountered an error processing your request.", none⟩)
      = handleSubmit ⟨[], "hi", false, none⟩ .networkFailure ∧
    (handleSubmit ⟨[], "hi", false, none⟩
        (.handlerResponse 503
          ⟨Role.assistant, "Sorry, I encountered an error processing your request.", none⟩)).1.messages
      = [] ++ [⟨Role.user, "hi", none⟩] ∧
    (handleSubmit ⟨[], "hi", false, none⟩
        (.handlerResponse 503
          ⟨Role.assistant, "Sorry, I encountered an error processing your request.", none⟩)).1.error
      = some clientErrorText :=
  handleSubmit_non_ok_same_as_network_failure ⟨[], "hi", false, none⟩ 503
    ⟨Role.assistant, "Sorry, I encountered an error processing your request.", none⟩
    (by decide) (by decide)

end ConnectAmerica
